import Mathlib

/-
  Verification of the MuseTalk unified polling worker (unified_worker.py).

  The development shallowly embeds the worker control loop, the heartbeat
  emitter, the job-claim client, the progress reporter, the job processor
  and the startup metrics collection.  Network and system effects are
  modelled as explicit environment values (outcomes of each attempted
  call); Python exceptions are modelled as explicit outcome constructors,
  and a handler that catches them is a total Lean function.
-/

namespace UnifiedWorker

/-- JSON primitive values appearing in request/response bodies. -/
inductive JPrim where
  | s (v : String)
  | num (v : Rat)
  | b (v : Bool)
  | null
deriving DecidableEq, Repr

/-- JSON values: a primitive or a flat object of primitives. -/
inductive JVal where
  | prim (p : JPrim)
  | obj (fields : List (String × JPrim))
deriving DecidableEq, Repr

/-- Python truthiness of an optional string (`None` and `""` are falsy). -/
def pyTruthyStr : Option String → Bool
  | none => false
  | some v => !(v == "")

/-- Python `a or d` for a string-or-None value `a` and a string `d`. -/
def pyOrD (a : Option String) (d : String) : String :=
  match a with
  | some v => if v == "" then d else v
  | none => d

/-- Python `a or b or d` as used for the error-message extraction in
`process_job`. -/
def pyOr3 (a b : Option String) (d : String) : String :=
  pyOrD a (pyOrD b d)

def jsonOfOptStr : Option String → JVal
  | none => JVal.prim JPrim.null
  | some v => JVal.prim (JPrim.s v)

def jsonOfMetrics : Option (List (String × JPrim)) → JVal
  | none => JVal.prim JPrim.null
  | some m => JVal.obj m

def jpOfOptNat : Option Nat → JPrim
  | none => JPrim.null
  | some n => JPrim.num (n : Rat)

/-- `WORKER_STATE["status"]`: the worker is either idle or busy. -/
inductive Status where
  | idle
  | busy
deriving DecidableEq, Repr

/-- The shared `WORKER_STATE` record guarded by `STATE_LOCK`. -/
structure WorkerState where
  status : Status
  current_job_id : Option String
deriving DecidableEq, Repr

/-- Serialization of the status as it is stored in the Python dict. -/
def statusStr : Status → String
  | .idle => "idle"
  | .busy => "busy"

/-- `WORKER_STATE` at startup: `{"status": "idle", "current_job_id": None}`. -/
def initState : WorkerState := ⟨.idle, none⟩

/-- The spec invariant: `current_job_id` is non-null iff `status = busy`. -/
def stateInvariant (s : WorkerState) : Prop :=
  s.status = .busy ↔ s.current_job_id ≠ none

instance (s : WorkerState) : Decidable (stateInvariant s) := by
  unfold stateInvariant
  infer_instance

/-- A claimed job body: the fields `process_job` and `main` read from
the `job` dict returned by `/jobs/claim`.  Every field is optional
because a Python dict lookup with `[]` raises `KeyError` when missing. -/
structure JobDict where
  musetalk_job_id : Option String
  video_url : Option String
  audio_url : Option String
  aspect_ratio : Option String
  resolution : Option String
deriving DecidableEq, Repr

/-- Parsed JSON body of a `/jobs/claim` response. -/
structure ClaimBody where
  error : Option String
  job : Option JobDict
deriving DecidableEq, Repr

/-- Outcome of one network attempt inside `claim_job`: either the POST
and JSON parse completed with a status code and body, or some exception
was raised (transport failure, JSON decode failure, ...). -/
inductive AttemptOutcome where
  | response (code : Nat) (body : ClaimBody)
  | raised (msg : String)

def isRaised : AttemptOutcome → Bool
  | .raised _ => true
  | _ => false

/-- What a completed (non-raising) attempt makes `claim_job` return:
`None` on a non-200 code, `None` on a truthy `error` field, otherwise
`data.get("job")`. -/
def attemptResult (o : AttemptOutcome) : Option JobDict :=
  match o with
  | .response code body =>
      if code ≠ 200 then none
      else if pyTruthyStr body.error then none
      else body.job
  | .raised _ => none

/-- Result of a whole `claim_job` call: the returned value, the number of
network attempts made, and the back-off sleeps performed (in seconds,
in order). -/
structure ClaimRun where
  result : Option JobDict
  attempts : Nat
  sleeps : List Nat
deriving DecidableEq, Repr

/-- The `for attempt in range(3)` loop of `claim_job`.  `a` is the
current attempt index, the second argument the remaining fuel.  A
non-raising attempt returns immediately; a raised attempt is caught,
`time.sleep(2 ** attempt)` runs, and the loop retries. -/
def claimFrom (env : Nat → AttemptOutcome) : Nat → Nat → ClaimRun
  | _, 0 => ⟨none, 0, []⟩
  | a, Nat.succ n =>
      match env a with
      | .response code body => ⟨attemptResult (.response code body), 1, []⟩
      | .raised _ =>
          let r := claimFrom env (a + 1) n
          ⟨r.result, r.attempts + 1, 2 ^ a :: r.sleeps⟩

/-- `claim_job`: up to 3 attempts starting at attempt index 0; returns
`None` after the loop if every attempt raised.  The return type is a
plain `ClaimRun` (no exception): the `except Exception` handler inside
the loop catches everything an attempt raises. -/
def claim_job (env : Nat → AttemptOutcome) : ClaimRun :=
  claimFrom env 0 3

/-- Index of the first attempt (among 0, 1, 2) that completes without
raising, if any. -/
def firstHandled (env : Nat → AttemptOutcome) : Option Nat :=
  if isRaised (env 0) = false then some 0
  else if isRaised (env 1) = false then some 1
  else if isRaised (env 2) = false then some 2
  else none

/-- C3: every `claim_job` call makes at most 3 network attempts; the
first attempt that completes (non-success response, error body, or a
job/no-job body) returns immediately with no further retry; a raised
attempt `k` (0-based) is followed by a sleep of `2 ^ k` seconds, i.e.
1s, 2s, 4s; and when all three attempts raise, the call returns no job
after sleeps `[1, 2, 4]` — it never raises into the control loop, being
a total function into `ClaimRun`. -/
theorem claim_job_bounded_retry (env : Nat → AttemptOutcome) :
    (claim_job env).attempts ≤ 3 ∧
    claim_job env =
      (match firstHandled env with
       | some k => ⟨attemptResult (env k), k + 1, (List.range k).map (fun i => 2 ^ i)⟩
       | none => ⟨none, 3, [1, 2, 4]⟩) := by
  rcases h0 : env 0 with code0 | m0
  · constructor
    · simp [claim_job, claimFrom, h0]
    · simp [claim_job, claimFrom, firstHandled, h0, isRaised]
  · rcases h1 : env 1 with code1 | m1
    · constructor
      · simp [claim_job, claimFrom, h0, h1]
      · simp [claim_job, claimFrom, firstHandled, h0, h1, isRaised]
        decide
    · rcases h2 : env 2 with code2 | m2
      · constructor
        · simp [claim_job, claimFrom, h0, h1, h2]
        · simp [claim_job, claimFrom, firstHandled, h0, h1, h2, isRaised]
          decide
      · constructor
        · simp [claim_job, claimFrom, h0, h1, h2]
        · simp [claim_job, claimFrom, firstHandled, h0, h1, h2, isRaised]

/-- Outcome of one orchestrator call made by `report_progress`: either
the POST returned with a status code, or an exception was raised
(network error, serialization failure, ...). -/
inductive SendOutcome where
  | resp (code : Nat)
  | raised (msg : String)

/-- The body of `report_progress` up to and including the POST, before
the `except` handler: raises exactly when the environment raises. -/
def reportAttempt (o : SendOutcome) : Except String Bool :=
  match o with
  | .resp code => .ok (code == 200)
  | .raised m => .error m

/-- `report_progress`: the `except Exception` handler catches every
failure and returns `False`; a completed POST returns
`resp.status_code == 200`.  Total: never raises into its caller. -/
def report_progress (o : SendOutcome) : Bool :=
  match reportAttempt o with
  | .ok ok => ok
  | .error _ => false

/-- Arguments of one `report_progress` call site (the job id and the
payload-building parameters, mirroring the Python signature). -/
structure ReportCall where
  job_id : String
  status : String
  progress : Rat
  phase : String
  metrics : Option (List (String × JPrim))
  error : Option String
  output_url : Option String
deriving DecidableEq, Repr

/-- The JSON payload `report_progress` builds from its arguments: the
six fixed keys, plus `output_url` appended only when truthy. -/
def mkPayload (workerId : String) (c : ReportCall) : List (String × JVal) :=
  let payload := [("status", JVal.prim (JPrim.s c.status)),
                  ("progress", JVal.prim (JPrim.num c.progress)),
                  ("phase", JVal.prim (JPrim.s c.phase)),
                  ("worker_id", JVal.prim (JPrim.s workerId)),
                  ("metrics", jsonOfMetrics c.metrics),
                  ("error", jsonOfOptStr c.error)]
  if pyTruthyStr c.output_url then
    payload ++ [("output_url", JVal.prim (JPrim.s (c.output_url.getD "")))]
  else payload

/-- Parsed JSON body of a `/generate` response, with every field the
worker (or the endpoint error handlers) may put there. -/
structure GenBody where
  status : Option String
  output_url : Option String
  metrics : Option (List (String × JPrim))
  error : Option String
  error_message : Option String
  error_type : Option String
  stage : Option String
  retryable : Option Bool
deriving DecidableEq, Repr

/-- Outcome of the long `/generate` POST inside `process_job`: a
response (status code, raw text, parsed body), or a raised exception
(transport failure, timeout, ...) with its type name and message. -/
inductive GenOutcome where
  | resp (code : Nat) (text : String) (body : GenBody)
  | raised (exnName : String) (exnMsg : String)

/-- Result of `process_job`: the returned boolean and the sequence of
`report_progress` calls made, each paired with the boolean that call
returned (the code discards it). -/
structure ProcRun where
  success : Bool
  reports : List (ReportCall × Bool)
deriving DecidableEq, Repr

/-- The initial "downloading" report of `process_job`.  The Python
literal `0.05` is modelled as the exact rational 1/20. -/
def startCall (jid : String) : ReportCall :=
  ⟨jid, "running", 1/20, "downloading", none, none, none⟩

/-- The terminal failure report of `process_job`. -/
def failedCall (jid : String) (msg : String) : ReportCall :=
  ⟨jid, "failed", 0, "failed", none, some msg, none⟩

/-- The terminal success report of `process_job`. -/
def succeededCall (jid : String) (metrics : Option (List (String × JPrim)))
    (outputUrl : Option String) : ReportCall :=
  ⟨jid, "succeeded", 1, "completed", metrics, none, outputUrl⟩

/-- The `try` body of `process_job` plus its `except` handler, after
`job_id` has been read.  The first report is always the "downloading"
one; building `gen_body` reads `video_url` and `audio_url` with a
mandatory lookup (a missing key raises `KeyError`, caught by the
handler); then the `/generate` outcome is classified. -/
def processCore (jid : String) (j : JobDict) (ge : GenOutcome)
    (renv : Nat → SendOutcome) : ProcRun :=
  let r0 := (startCall jid, report_progress (renv 0))
  match j.video_url with
  | none =>
      let msg := "KeyError: \x27video_url\x27"
      ⟨false, [r0, (failedCall jid msg, report_progress (renv 1))]⟩
  | some _ =>
      match j.audio_url with
      | none =>
          let msg := "KeyError: \x27audio_url\x27"
          ⟨false, [r0, (failedCall jid msg, report_progress (renv 1))]⟩
      | some _ =>
          match ge with
          | .raised exnName exnMsg =>
              let msg := exnName ++ ": " ++ exnMsg
              ⟨false, [r0, (failedCall jid msg, report_progress (renv 1))]⟩
          | .resp code text body =>
              if code = 200 then
                if body.status = some "succeeded" ∨ body.status = some "success" then
                  ⟨true, [r0, (succeededCall jid body.metrics body.output_url,
                               report_progress (renv 1))]⟩
                else
                  let msg := pyOr3 body.error body.error_message
                    "Unknown error from /generate"
                  ⟨false, [r0, (failedCall jid msg, report_progress (renv 1))]⟩
              else
                let msg := "HTTP " ++ toString code ++ ": " ++ text.take 200
                ⟨false, [r0, (failedCall jid msg, report_progress (renv 1))]⟩

/-- `process_job`: `job_id = job["musetalk_job_id"]` is read before the
`try` block, so a missing key raises out of the function (modelled as
`none`); otherwise the body runs and always returns a `ProcRun`. -/
def process_job (j : JobDict) (ge : GenOutcome)
    (renv : Nat → SendOutcome) : Option ProcRun :=
  match j.musetalk_job_id with
  | none => none
  | some jid => some (processCore jid j ge renv)

/-- Boolean check that a list of progress fractions never decreases. -/
def nondecreasingRat : List Rat → Bool
  | [] => true
  | a :: rest =>
      match rest with
      | [] => true
      | b :: _ => (decide (a ≤ b)) && nondecreasingRat rest

/-- The progress fractions of the reports of a run, in order. -/
def progressList (run : ProcRun) : List Rat :=
  run.reports.map (fun rc => rc.1.progress)

/-- A concrete claimed job used as test input. -/
def jobEx : JobDict :=
  ⟨some "job-42", some "https://x/v.mp4", some "https://x/a.wav", none, none⟩

/-- A report environment where every orchestrator call returns 200. -/
def rOkEnv : Nat → SendOutcome := fun _ => SendOutcome.resp 200

/-- A structured failure body as the `/generate` error handlers emit it
(status failed, error_type/stage/retryable declared, error_message set,
no `error` field). -/
def failBodyEx : GenBody :=
  ⟨some "failed", none, none, none, some "bad input",
   some "media_error", some "download", some false⟩

/-- Helper: a successful `processCore` run reports exactly the 0.05
"downloading" fraction followed by the 1.0 terminal fraction. -/
theorem processCore_progress_of_success (jid : String) (j : JobDict)
    (ge : GenOutcome) (renv : Nat → SendOutcome)
    (hs : (processCore jid j ge renv).success = true) :
    progressList (processCore jid j ge renv) = [1/20, 1] := by
  rcases hv : j.video_url with _ | vu
  · simp [processCore, hv] at hs
  · rcases ha : j.audio_url with _ | au
    · simp [processCore, hv, ha] at hs
    · rcases ge with ⟨code, text, body⟩ | ⟨en, em⟩
      · by_cases hc : code = 200
        · by_cases hst : body.status = some "succeeded" ∨ body.status = some "success"
          · simp [processCore, hv, ha, hc, hst, progressList, startCall, succeededCall]
          · simp [processCore, hv, ha, hc, hst] at hs
        · simp [processCore, hv, ha, hc] at hs
      · simp [processCore, hv, ha] at hs

/-- C9: for a 200 `/generate` response, `process_job` classifies the job
as succeeded iff the `status` field of the body is "succeeded" or "success";
any other status (including absent) yields a failure whose reported
error message is `body.error or body.error_message or "Unknown error
from /generate"`. -/
theorem generate_status_classification (jid text : String) (j : JobDict)
    (body : GenBody) (renv : Nat → SendOutcome) (vu au : String)
    (hid : j.musetalk_job_id = some jid) (hv : j.video_url = some vu)
    (ha : j.audio_url = some au) :
    ∃ run, process_job j (GenOutcome.resp 200 text body) renv = some run ∧
      (run.success = true ↔
        (body.status = some "succeeded" ∨ body.status = some "success")) ∧
      (¬ (body.status = some "succeeded" ∨ body.status = some "success") →
        run.reports.map Prod.fst =
          [startCall jid,
           failedCall jid
             (pyOr3 body.error body.error_message "Unknown error from /generate")]) := by
  refine ⟨processCore jid j (GenOutcome.resp 200 text body) renv, ?_, ?_, ?_⟩
  · simp [process_job, hid]
  · by_cases hst : body.status = some "succeeded" ∨ body.status = some "success" <;>
      simp [processCore, hv, ha, hst]
  · intro hst
    simp [processCore, hv, ha, hst]

/-- C9 witness: the concrete failure body is classified as failed with
the error_message of the body surfaced. -/
theorem generate_status_classification_witness :
    ∃ run, process_job jobEx (GenOutcome.resp 200 "" failBodyEx) rOkEnv = some run ∧
      (run.success = true ↔
        (failBodyEx.status = some "succeeded" ∨ failBodyEx.status = some "success")) ∧
      (¬ (failBodyEx.status = some "succeeded" ∨ failBodyEx.status = some "success") →
        run.reports.map Prod.fst =
          [startCall "job-42",
           failedCall "job-42"
             (pyOr3 failBodyEx.error failBodyEx.error_message
               "Unknown error from /generate")]) :=
  generate_status_classification "job-42" "" jobEx failBodyEx rOkEnv
    "https://x/v.mp4" "https://x/a.wav" rfl rfl rfl

/-- C7: every failure of a `report_progress` call is caught and
swallowed (a raised send yields `false`, a completed send yields the
200-check), and a job whose `/generate` call succeeded is recorded as
succeeded by `process_job` for every report environment, including one
where the terminal progress report itself fails. -/
theorem report_progress_swallows_failures (o : SendOutcome)
    (jid text : String) (j : JobDict) (body : GenBody)
    (renv : Nat → SendOutcome) (vu au : String)
    (hid : j.musetalk_job_id = some jid) (hv : j.video_url = some vu)
    (ha : j.audio_url = some au) (hs : body.status = some "succeeded") :
    (∀ m, reportAttempt o = Except.error m → report_progress o = false) ∧
    (∀ c, o = SendOutcome.resp c → report_progress o = (c == 200)) ∧
    (process_job j (GenOutcome.resp 200 text body) renv).map ProcRun.success
      = some true := by
  refine ⟨?_, ?_, ?_⟩
  · intro m hm
    simp [report_progress, hm]
  · intro c hc
    simp [report_progress, reportAttempt, hc]
  · simp [process_job, hid, processCore, hv, ha, hs]

/-- A successful `/generate` body. -/
def okBodyEx : GenBody :=
  ⟨some "succeeded", some "https://x/y.mp4", none, none, none, none, none, none⟩

/-- A report environment where every orchestrator call raises. -/
def rFailEnv : Nat → SendOutcome := fun _ => SendOutcome.raised "ConnectError"

/-- C7 witness: with every progress report raising, the raised send is
swallowed as `false` and the succeeded job is still recorded as
succeeded. -/
theorem report_progress_swallows_failures_witness :
    (∀ m, reportAttempt (SendOutcome.raised "ConnectError") = Except.error m →
      report_progress (SendOutcome.raised "ConnectError") = false) ∧
    (∀ c, SendOutcome.raised "ConnectError" = SendOutcome.resp c →
      report_progress (SendOutcome.raised "ConnectError") = (c == 200)) ∧
    (process_job jobEx (GenOutcome.resp 200 "" okBodyEx) rFailEnv).map ProcRun.success
      = some true :=
  report_progress_swallows_failures (SendOutcome.raised "ConnectError")
    "job-42" "" jobEx okBodyEx rFailEnv
    "https://x/v.mp4" "https://x/a.wav" rfl rfl rfl rfl

/-- C6 counterexample: a job whose `/generate` call reports a failure
gets the report sequence 0.05 then 0.0 — the reported progress
fractions decrease, refuting the claim that they never decrease. -/
theorem progress_monotonic_counterexample :
    (process_job jobEx (GenOutcome.resp 200 "" failBodyEx) rOkEnv).map progressList
      = some [1/20, 0] ∧
    nondecreasingRat [1/20, 0] = false := by
  constructor
  · rfl
  · simp [nondecreasingRat]

/-- C6 amended: for every job that `process_job` classifies as
succeeded, the reported fractions are exactly 0.05 then 1, a
non-decreasing sequence whose terminal report carries exactly 1.0.
(For a failed job the terminal report carries 0.0, below the 0.05
intermediate report.) -/
theorem progress_monotonic_amended (j : JobDict) (ge : GenOutcome)
    (renv : Nat → SendOutcome) (run : ProcRun)
    (hrun : process_job j ge renv = some run) (hs : run.success = true) :
    progressList run = [1/20, 1] ∧
    nondecreasingRat (progressList run) = true ∧
    (progressList run).getLast? = some 1 := by
  rcases hj : j.musetalk_job_id with _ | jid
  · simp [process_job, hj] at hrun
  · rw [process_job] at hrun
    rw [hj] at hrun
    have hrun2 : run = processCore jid j ge renv := by
      injection hrun with h
      exact h.symm
    subst hrun2
    have hp := processCore_progress_of_success jid j ge renv hs
    refine ⟨hp, ?_, ?_⟩
    · rw [hp]
      simp [nondecreasingRat]
      norm_num
    · rw [hp]; rfl

/-- C6 amended witness: a concrete succeeded job reports [0.05, 1]. -/
theorem progress_monotonic_amended_witness :
    progressList (processCore "job-42" jobEx (GenOutcome.resp 200 "" okBodyEx) rOkEnv)
      = [1/20, 1] ∧
    nondecreasingRat (progressList
      (processCore "job-42" jobEx (GenOutcome.resp 200 "" okBodyEx) rOkEnv)) = true ∧
    (progressList
      (processCore "job-42" jobEx (GenOutcome.resp 200 "" okBodyEx) rOkEnv)).getLast?
      = some 1 :=
  progress_monotonic_amended jobEx (GenOutcome.resp 200 "" okBodyEx) rOkEnv
    (processCore "job-42" jobEx (GenOutcome.resp 200 "" okBodyEx) rOkEnv) rfl rfl

/-- C5 counterexample: the endpoint responds with a structured failure
body declaring error_type/stage/retryable, but the failure report sent
to the orchestrator carries none of those fields (and no
`error_message` field): its payload has exactly the six fixed keys. -/
theorem failure_report_fields_counterexample :
    failBodyEx.error_type = some "media_error" ∧
    failBodyEx.stage = some "download" ∧
    failBodyEx.retryable = some false ∧
    (process_job jobEx (GenOutcome.resp 200 "" failBodyEx) rOkEnv).map
        (fun run => run.reports.map Prod.fst)
      = some [startCall "job-42", failedCall "job-42" "bad input"] ∧
    (mkPayload "w-1" (failedCall "job-42" "bad input")).map Prod.fst
      = ["status", "progress", "phase", "worker_id", "metrics", "error"] ∧
    (mkPayload "w-1" (failedCall "job-42" "bad input")).lookup "error_type" = none ∧
    (mkPayload "w-1" (failedCall "job-42" "bad input")).lookup "stage" = none ∧
    (mkPayload "w-1" (failedCall "job-42" "bad input")).lookup "retryable" = none := by
  refine ⟨rfl, rfl, rfl, rfl, ?_, ?_, ?_, ?_⟩ <;> rfl

/-- C5 amended: for a 200 `/generate` response with a failure body, the
failure report carries status "failed", phase "failed", progress 0 and
an error message extracted as `error or error_message or default`; its
payload holds exactly the keys status/progress/phase/worker_id/metrics/
error, so error_type, stage and retryable are never forwarded.  For a
non-200 response the reported error is the flattened
`HTTP code: text` string, again without those fields. -/
theorem failure_report_fields_amended (jid text workerId : String)
    (j : JobDict) (body : GenBody) (renv : Nat → SendOutcome) (vu au : String)
    (hid : j.musetalk_job_id = some jid) (hv : j.video_url = some vu)
    (ha : j.audio_url = some au)
    (hs : ¬ (body.status = some "succeeded" ∨ body.status = some "success")) :
    (∃ run, process_job j (GenOutcome.resp 200 text body) renv = some run ∧
      run.reports.map Prod.fst =
        [startCall jid,
         failedCall jid
           (pyOr3 body.error body.error_message "Unknown error from /generate")]) ∧
    (∀ msg, (mkPayload workerId (failedCall jid msg)).map Prod.fst =
      ["status", "progress", "phase", "worker_id", "metrics", "error"]) ∧
    (∀ code2 text2 body2, code2 ≠ 200 →
      ∃ run2, process_job j (GenOutcome.resp code2 text2 body2) renv = some run2 ∧
        run2.reports.map Prod.fst =
          [startCall jid,
           failedCall jid ("HTTP " ++ toString code2 ++ ": " ++ text2.take 200)]) := by
  refine ⟨⟨processCore jid j (GenOutcome.resp 200 text body) renv, ?_, ?_⟩, ?_, ?_⟩
  · simp [process_job, hid]
  · simp [processCore, hv, ha, hs]
  · intro msg
    simp [mkPayload, failedCall, pyTruthyStr]
  · intro code2 text2 body2 hc2
    refine ⟨processCore jid j (GenOutcome.resp code2 text2 body2) renv, ?_, ?_⟩
    · simp [process_job, hid]
    · simp [processCore, hv, ha, hc2]

/-- C5 amended witness: the concrete structured failure body yields the
amended report shape. -/
theorem failure_report_fields_amended_witness :
    (∃ run, process_job jobEx (GenOutcome.resp 200 "" failBodyEx) rOkEnv = some run ∧
      run.reports.map Prod.fst =
        [startCall "job-42",
         failedCall "job-42"
           (pyOr3 failBodyEx.error failBodyEx.error_message
             "Unknown error from /generate")]) ∧
    (∀ msg, (mkPayload "w-1" (failedCall "job-42" msg)).map Prod.fst =
      ["status", "progress", "phase", "worker_id", "metrics", "error"]) ∧
    (∀ code2 text2 body2, code2 ≠ 200 →
      ∃ run2, process_job jobEx (GenOutcome.resp code2 text2 body2) rOkEnv = some run2 ∧
        run2.reports.map Prod.fst =
          [startCall "job-42",
           failedCall "job-42" ("HTTP " ++ toString code2 ++ ": " ++ text2.take 200)]) :=
  failure_report_fields_amended "job-42" "" "w-1" jobEx failBodyEx rOkEnv
    "https://x/v.mp4" "https://x/a.wav" rfl rfl rfl (by decide)

/-- Result of a measurement inside `get_system_metrics`: the measured
value, or a raised exception caught by the surrounding handler. -/
inductive Meas (α : Type) where
  | ok (v : α)
  | failed (msg : String)
deriving DecidableEq, Repr

/-- Python banker-rounding of an exact rational to the nearest integer
(ties to even), the semantics of `round` on an exact value. -/
def roundHalfToEven (q : Rat) : Int :=
  let f : Int := q.floor
  let r : Rat := q - (f : Rat)
  if r < 1/2 then f
  else if (1 : Rat)/2 < r then f + 1
  else if f % 2 = 0 then f else f + 1

/-- Python `round(q, 2)` on an exact rational. -/
def pyRound2 (q : Rat) : Rat :=
  ((roundHalfToEven (q * 100) : Int) : Rat) / 100

/-- The measurement environment of `get_system_metrics`: what
`psutil.cpu_count` (logical and physical), `platform.processor`,
`psutil.virtual_memory`, `psutil.disk_usage` and the speedtest yield.
The RAM/disk pairs are (total bytes, available/free bytes); the speed
is in bits per second. -/
structure SysEnv where
  cpuPhysical : Option Nat
  cpuLogical : Option Nat
  cpuModel : String
  ram : Meas (Nat × Nat)
  disk : Meas (Nat × Nat)
  speed : Meas Rat
deriving DecidableEq, Repr

/-- Bytes per GiB (`1024 ** 3`). -/
def gib : Rat := 1073741824

/-- `get_system_metrics`: the CPU fields are set unconditionally; a RAM
or disk measurement failure skips its two fields; a speedtest failure
sets `download_speed_mbps` to `None` instead. -/
def get_system_metrics (env : SysEnv) : List (String × JPrim) :=
  let metrics := [("cpu_cores_physical", jpOfOptNat env.cpuPhysical),
                  ("cpu_cores_logical", jpOfOptNat env.cpuLogical),
                  ("cpu_model", JPrim.s env.cpuModel)]
  let metrics := match env.ram with
    | .ok (total, avail) =>
        metrics ++ [("ram_total_gb", JPrim.num (pyRound2 ((total : Rat) / gib))),
                    ("ram_available_gb", JPrim.num (pyRound2 ((avail : Rat) / gib)))]
    | .failed _ => metrics
  let metrics := match env.disk with
    | .ok (total, free) =>
        metrics ++ [("disk_total_gb", JPrim.num (pyRound2 ((total : Rat) / gib))),
                    ("disk_free_gb", JPrim.num (pyRound2 ((free : Rat) / gib)))]
    | .failed _ => metrics
  match env.speed with
  | .ok bps =>
      metrics ++ [("download_speed_mbps", JPrim.num (pyRound2 (bps / 1000000)))]
  | .failed _ => metrics ++ [("download_speed_mbps", JPrim.null)]

/-- The identity fields and cached metrics the heartbeat loop reads. -/
structure HBConfig where
  workerId : String
  provider : String
  gpuClass : String
  workerType : String
  systemInfo : List (String × JPrim)
deriving DecidableEq, Repr

/-- The heartbeat JSON body built on each send from the state read
under the lock and the startup metrics cache. -/
def mkHeartbeat (cfg : HBConfig) (st : WorkerState) : List (String × JVal) :=
  [("status", JVal.prim (JPrim.s (statusStr st.status))),
   ("current_job_id", jsonOfOptStr st.current_job_id),
   ("provider", JVal.prim (JPrim.s cfg.provider)),
   ("gpu_class", JVal.prim (JPrim.s cfg.gpuClass)),
   ("worker_type", JVal.prim (JPrim.s cfg.workerType)),
   ("system_info", JVal.obj cfg.systemInfo)]

/-- Outcome of one inner-loop pass of `heartbeat_loop`: the POST
completed with a status code, or it raised a transport-level
exception (`httpx.RequestError`/`HTTPStatusError`), or some other
exception was raised.  Each event carries the `WORKER_STATE` value the
pass read under the lock. -/
inductive HBEvent where
  | delivered (st : WorkerState) (code : Nat)
  | transportError (st : WorkerState) (msg : String)
  | otherError (st : WorkerState) (msg : String)

/-- Observable effects of one inner-loop pass: the payload sent (if the
send completed), whether a non-200 warning was logged, whether the pass
slept 5s before the next beat, and whether the client was torn down and
rebuilt (`break` out of the `with httpx.Client` block). -/
structure HBStepOut where
  payload : Option (List (String × JVal))
  warned : Bool
  slept : Bool
  rebuiltClient : Bool
deriving DecidableEq, Repr

/-- One pass of the heartbeat inner loop.  `clientGen` counts client
(re)creations: a transport error breaks to the outer loop, which
builds a fresh client; any other exception is logged and the pass
sleeps with the same client. -/
def hbStep (cfg : HBConfig) (clientGen : Nat) : HBEvent → Nat × HBStepOut
  | .delivered st code => (clientGen, ⟨some (mkHeartbeat cfg st), code != 200, true, false⟩)
  | .transportError _ _ => (clientGen + 1, ⟨none, false, false, true⟩)
  | .otherError _ _ => (clientGen, ⟨none, false, true, false⟩)

/-- The heartbeat loop over a sequence of pass outcomes: total, so the
thread never terminates on any outcome sequence. -/
def hbRun (cfg : HBConfig) (clientGen : Nat) : List HBEvent → Nat × List HBStepOut
  | [] => (clientGen, [])
  | e :: es =>
      let p := hbStep cfg clientGen e
      let r := hbRun cfg p.1 es
      (r.1, p.2 :: r.2)

/-- Number of transport-level failures in a pass sequence. -/
def countTransport : List HBEvent → Nat
  | [] => 0
  | HBEvent.transportError _ _ :: es => countTransport es + 1
  | _ :: es => countTransport es

/-- C4: the heartbeat emitter survives every pass outcome: each event in
the sequence produces exactly one pass (the next scheduled attempt
always occurs), each transport failure discards the session and builds
exactly one fresh client (final generation = initial + number of
transport failures), the pass of a transport failure rebuilds the client
once without terminating, and a non-200 response is only logged as a
warning while the loop continues with the same client. -/
theorem heartbeat_transport_resilience (cfg : HBConfig) (clientGen : Nat)
    (evs : List HBEvent) :
    ((hbRun cfg clientGen evs).2.length = evs.length) ∧
    ((hbRun cfg clientGen evs).1 = clientGen + countTransport evs) ∧
    (∀ st msg g, hbStep cfg g (HBEvent.transportError st msg) =
      (g + 1, ⟨none, false, false, true⟩)) ∧
    (∀ st code g, code ≠ 200 → hbStep cfg g (HBEvent.delivered st code) =
      (g, ⟨some (mkHeartbeat cfg st), true, true, false⟩)) := by
  refine ⟨?_, ?_, ?_, ?_⟩
  · induction evs generalizing clientGen with
    | nil => rfl
    | cons e es ih => simp [hbRun, ih]
  · induction evs generalizing clientGen with
    | nil => simp [hbRun, countTransport]
    | cons e es ih =>
        cases e with
        | delivered st code => simp [hbRun, hbStep, countTransport, ih]
        | transportError st msg =>
            simp [hbRun, hbStep, countTransport, ih]
            omega
        | otherError st msg => simp [hbRun, hbStep, countTransport, ih]
  · intro st msg g
    rfl
  · intro st code g hc
    simp [hbStep, bne, hc]

/-- A concrete heartbeat configuration for witnesses. -/
def cfgEx : HBConfig := ⟨"w-1", "salad", "rtx3060", "main", [("cpu_cores_logical", JPrim.num 8)]⟩

/-- C4 witness: a concrete 3-pass sequence with a non-200 response and
a transport failure is fully processed with exactly one rebuild. -/
theorem heartbeat_transport_resilience_witness :
    ((hbRun cfgEx 0 [HBEvent.delivered initState 500,
                     HBEvent.transportError initState "ssl",
                     HBEvent.delivered initState 200]).2.length = 3) ∧
    ((hbRun cfgEx 0 [HBEvent.delivered initState 500,
                     HBEvent.transportError initState "ssl",
                     HBEvent.delivered initState 200]).1 = 0 + countTransport
        [HBEvent.delivered initState 500,
         HBEvent.transportError initState "ssl",
         HBEvent.delivered initState 200]) ∧
    (hbStep cfgEx 7 (HBEvent.transportError initState "ssl") =
      (8, ⟨none, false, false, true⟩)) ∧
    (hbStep cfgEx 7 (HBEvent.delivered initState 500) =
      (7, ⟨some (mkHeartbeat cfgEx initState), true, true, false⟩)) := by
  have h := heartbeat_transport_resilience cfgEx 0
    [HBEvent.delivered initState 500,
     HBEvent.transportError initState "ssl",
     HBEvent.delivered initState 200]
  exact ⟨h.1, h.2.1, h.2.2.1 initState "ssl" 7,
         h.2.2.2 initState 500 7 (by decide)⟩

/-- A measurement environment where only the speedtest fails. -/
def sysEnvSpeedFail : SysEnv :=
  ⟨some 8, some 16, "x86_64", Meas.ok (68719476736, 34359738368),
   Meas.ok (137438953472, 68719476736), Meas.failed "speedtest timeout"⟩

/-- C8 counterexample: when the speed measurement fails during
collection, the `download_speed_mbps` field is not omitted from the
metrics mapping — it is present with value null. -/
theorem system_metrics_counterexample :
    sysEnvSpeedFail.speed = Meas.failed "speedtest timeout" ∧
    (get_system_metrics sysEnvSpeedFail).lookup "download_speed_mbps"
      = some JPrim.null := by
  exact ⟨rfl, rfl⟩

/-- C8 amended: the metrics are computed once at startup and attached
verbatim (as `system_info`) to every heartbeat the emitter sends; a
failed RAM or disk measurement omits its two fields; a failed speed
measurement leaves `download_speed_mbps` present with value null
rather than omitting it. -/
theorem system_metrics_amended (env : SysEnv) (cfg : HBConfig) (clientGen : Nat)
    (evs : List HBEvent) (hcfg : cfg.systemInfo = get_system_metrics env) :
    (∀ o ∈ (hbRun cfg clientGen evs).2, ∀ p, o.payload = some p →
        p.lookup "system_info" = some (JVal.obj (get_system_metrics env))) ∧
    (∀ m, env.ram = Meas.failed m →
        (get_system_metrics env).lookup "ram_total_gb" = none ∧
        (get_system_metrics env).lookup "ram_available_gb" = none) ∧
    (∀ m, env.disk = Meas.failed m →
        (get_system_metrics env).lookup "disk_total_gb" = none ∧
        (get_system_metrics env).lookup "disk_free_gb" = none) ∧
    (∀ m, env.speed = Meas.failed m →
        (get_system_metrics env).lookup "download_speed_mbps" = some JPrim.null) := by
  refine ⟨?_, ?_, ?_, ?_⟩
  · induction evs generalizing clientGen with
    | nil => intro o ho; simp [hbRun] at ho
    | cons e es ih =>
        intro o ho p hp
        rw [hbRun] at ho
        simp at ho
        rcases ho with ho | ho
        · cases e with
          | delivered st code =>
              rw [ho] at hp
              simp [hbStep, mkHeartbeat] at hp
              rw [← hp]
              simp [mkHeartbeat, List.lookup, hcfg]
          | transportError st msg => rw [ho] at hp; simp [hbStep] at hp
          | otherError st msg => rw [ho] at hp; simp [hbStep] at hp
        · exact ih _ o ho p hp
  · intro m hm
    rcases hd : env.disk with ⟨dt, df⟩ | dm <;>
      rcases hs : env.speed with ⟨bps⟩ | sm <;>
        simp [get_system_metrics, hm, hd, hs, List.lookup]
  · intro m hm
    rcases hr : env.ram with ⟨rt, ra⟩ | rm <;>
      rcases hs : env.speed with ⟨bps⟩ | sm <;>
        simp [get_system_metrics, hm, hr, hs, List.lookup]
  · intro m hm
    rcases hr : env.ram with ⟨rt, ra⟩ | rm <;>
      rcases hd : env.disk with ⟨dt, df⟩ | dm <;>
        simp [get_system_metrics, hm, hr, hd, List.lookup]

/-- A measurement environment where RAM, disk and speedtest all fail. -/
def sysEnvAllFail : SysEnv :=
  ⟨none, some 4, "arm", Meas.failed "ram", Meas.failed "disk", Meas.failed "net"⟩

/-- Heartbeat configuration caching the all-fail startup metrics. -/
def cfgMetricsEx : HBConfig :=
  ⟨"w-1", "salad", "rtx3060", "main", get_system_metrics sysEnvAllFail⟩

/-- C8 amended witness: with failing RAM/disk/speed measurements, the
RAM and disk fields are omitted and the speed field is null, and a
delivered heartbeat carries the startup metrics verbatim. -/
theorem system_metrics_amended_witness :
    ((mkHeartbeat cfgMetricsEx initState).lookup "system_info"
      = some (JVal.obj (get_system_metrics sysEnvAllFail))) ∧
    ((get_system_metrics sysEnvAllFail).lookup "ram_total_gb" = none) ∧
    ((get_system_metrics sysEnvAllFail).lookup "disk_total_gb" = none) ∧
    ((get_system_metrics sysEnvAllFail).lookup "download_speed_mbps"
      = some JPrim.null) := by
  have h := system_metrics_amended sysEnvAllFail cfgMetricsEx 0
    [HBEvent.delivered initState 200] rfl
  refine ⟨?_, (h.2.1 "ram" rfl).1, (h.2.2.1 "disk" rfl).1, h.2.2.2 "net" rfl⟩
  have h1 := h.1 ((hbStep cfgMetricsEx 0 (HBEvent.delivered initState 200)).2)
    (by simp [hbRun]) (mkHeartbeat cfgMetricsEx initState) (by simp [hbStep])
  exact h1

/-- Environment outcome of one inner-loop iteration of `main`: either
`claim_job` returned a job dict (with the `/generate` and report
outcomes the iteration will see), or it returned `None`. -/
inductive MainEvent where
  | claimed (j : JobDict) (ge : GenOutcome) (renv : Nat → SendOutcome)
  | noJob

/-- Which line of `main` performed a guarded write to `WORKER_STATE`. -/
inductive WriteCause where
  | claimSuccess (jobId : String)
  | jobDone
  | noJobCheck
  | errorReset
deriving DecidableEq, Repr

/-- Observable actions of one `main` iteration: a guarded state write
(with the state value left behind, which the heartbeat thread can then
read), the `process_job` run, a sleep, or a logged error. -/
inductive Obs where
  | write (c : WriteCause) (s : WorkerState)
  | processed (r : ProcRun)
  | sleep (seconds : Nat)
  | logged (msg : String)
deriving DecidableEq, Repr

/-- Effects of the outer `except Exception` handler of `main` when the
iteration raised the in-model unclassified exception (the `KeyError`
from `job["musetalk_job_id"]`): log, force the state back to idle,
sleep one poll interval. -/
def unexpectedObs (p : Nat) : List Obs :=
  [Obs.logged "[main] Unexpected error in outer loop: \x27musetalk_job_id\x27",
   Obs.write WriteCause.errorReset ⟨.idle, none⟩,
   Obs.sleep p]

/-- One iteration of the `main` polling loop.  On a claimed job with a
job id, the state is set to busy under the lock, `process_job` runs
(total — it catches its own exceptions), and the state is reset to
idle; a claimed job dict without `musetalk_job_id` raises `KeyError`
before the busy write, caught by the outer handler; on no job, the
state is reset under the lock only if it is not idle, then the
iteration sleeps one poll interval. -/
def iterStep (p : Nat) (s : WorkerState) : MainEvent → WorkerState × List Obs
  | .claimed j ge renv =>
      match j.musetalk_job_id with
      | some jid =>
          (⟨.idle, none⟩,
           [Obs.write (.claimSuccess jid) ⟨.busy, some jid⟩,
            Obs.processed (processCore jid j ge renv),
            Obs.write .jobDone ⟨.idle, none⟩])
      | none => (⟨.idle, none⟩, unexpectedObs p)
  | .noJob =>
      if s.status ≠ .idle then
        (⟨.idle, none⟩, [Obs.write .noJobCheck ⟨.idle, none⟩, Obs.sleep p])
      else
        (s, [Obs.sleep p])

/-- The `main` polling loop over a sequence of iteration outcomes:
total, so no outcome sequence terminates the loop. -/
def mainRun (p : Nat) (s : WorkerState) : List MainEvent → WorkerState × List Obs
  | [] => (s, [])
  | e :: evs =>
      let st1 := iterStep p s e
      let rest := mainRun p st1.1 evs
      (rest.1, st1.2 ++ rest.2)

def writtenState : Obs → Option WorkerState
  | Obs.write _ st => some st
  | _ => none

/-- The state values the heartbeat thread can observe during a run from
startup: the initial state plus every value left by a guarded write. -/
def observables (p : Nat) (evs : List MainEvent) : List WorkerState :=
  initState :: (mainRun p initState evs).2.filterMap writtenState

/-- The shape every guarded write has: busy-with-job-id exactly at
claim success, idle-with-null at every other write site. -/
def writeShape (c : WriteCause) (st : WorkerState) : Prop :=
  (∃ jid, c = WriteCause.claimSuccess jid ∧ st = ⟨.busy, some jid⟩) ∨
  ((c = WriteCause.jobDone ∨ c = WriteCause.noJobCheck ∨ c = WriteCause.errorReset) ∧
    st = ⟨.idle, none⟩)

theorem writeShape_invariant (c : WriteCause) (st : WorkerState)
    (h : writeShape c st) : stateInvariant st := by
  rcases h with ⟨jid, _, rfl⟩ | ⟨_, rfl⟩ <;> simp [stateInvariant]

theorem iterStep_write_shape (p : Nat) (s : WorkerState) (e : MainEvent)
    (c : WriteCause) (st : WorkerState)
    (h : Obs.write c st ∈ (iterStep p s e).2) : writeShape c st := by
  cases e with
  | claimed j ge renv =>
      rcases hj : j.musetalk_job_id with _ | jid
      · simp [iterStep, hj, unexpectedObs] at h
        exact Or.inr ⟨Or.inr (Or.inr h.1), h.2⟩
      · simp [iterStep, hj] at h
        rcases h with ⟨rfl, rfl⟩ | ⟨rfl, rfl⟩
        · exact Or.inl ⟨jid, rfl, rfl⟩
        · exact Or.inr ⟨Or.inl rfl, rfl⟩
  | noJob =>
      by_cases hs : s.status = .idle
      · simp [iterStep, hs] at h
      · simp [iterStep, hs] at h
        exact Or.inr ⟨Or.inr (Or.inl h.1), h.2⟩

theorem mainRun_write_shape (p : Nat) (s : WorkerState) (evs : List MainEvent)
    (c : WriteCause) (st : WorkerState)
    (h : Obs.write c st ∈ (mainRun p s evs).2) : writeShape c st := by
  induction evs generalizing s with
  | nil => simp [mainRun] at h
  | cons e es ih =>
      simp only [mainRun, List.mem_append] at h
      rcases h with h | h
      · exact iterStep_write_shape p s e c st h
      · exact ih _ h

/-- C1: in every run of the polling loop from startup, every state
value the heartbeat thread can observe satisfies the invariant (busy
iff the job id is non-null, so only the two shapes (busy, id) and
(idle, null) ever occur), and every guarded write is either the
claim-success write (busy, claimed job id) or one of the resets to
(idle, null) at job completion, the no-job check, or the error
backstop. -/
theorem worker_state_invariant (p : Nat) (evs : List MainEvent) :
    (∀ st ∈ observables p evs, stateInvariant st) ∧
    (∀ c st, Obs.write c st ∈ (mainRun p initState evs).2 → writeShape c st) := by
  refine ⟨?_, fun c st h => mainRun_write_shape p initState evs c st h⟩
  intro st hst
  rcases List.mem_cons.mp hst with rfl | hst2
  · simp [stateInvariant, initState]
  · rcases List.mem_filterMap.mp hst2 with ⟨o, ho, hwo⟩
    cases o with
    | write c st2 =>
        have hst3 : st2 = st := by
          simpa [writtenState] using hwo
        subst hst3
        exact writeShape_invariant c st2 (mainRun_write_shape p initState evs c st2 ho)
    | processed r => simp [writtenState] at hwo
    | sleep n => simp [writtenState] at hwo
    | logged m => simp [writtenState] at hwo

/-- The event sequence used by witnesses: a successfully claimed and
processed job, then an empty poll. -/
def evsEx : List MainEvent :=
  [MainEvent.claimed jobEx (GenOutcome.resp 200 "" okBodyEx) rOkEnv, MainEvent.noJob]

/-- C1 witness: in the concrete two-iteration run, the observed busy
state carries the claimed job id and satisfies the invariant. -/
theorem worker_state_invariant_witness :
    stateInvariant ⟨Status.busy, some "job-42"⟩ ∧
    writeShape (WriteCause.claimSuccess "job-42") ⟨Status.busy, some "job-42"⟩ := by
  have h := worker_state_invariant 5 evsEx
  refine ⟨h.1 ⟨Status.busy, some "job-42"⟩ ?_, ?_⟩
  · decide
  · exact h.2 (WriteCause.claimSuccess "job-42") ⟨Status.busy, some "job-42"⟩ (by decide)

/-- C2: when an iteration raises the unclassified exception (a claimed
job dict without `musetalk_job_id`, raising `KeyError` at the top of
the claim-execute-report sequence), the loop does not terminate: the
error is logged, the state is forced back to (idle, null), the
iteration sleeps one poll interval, and the remaining iterations
proceed exactly as a run restarted from the idle state — in particular
the next event is a fresh claim attempt. -/
theorem unclassified_error_keeps_loop_alive (p : Nat) (s : WorkerState)
    (j : JobDict) (ge : GenOutcome) (renv : Nat → SendOutcome)
    (evs : List MainEvent) (h : j.musetalk_job_id = none) :
    iterStep p s (MainEvent.claimed j ge renv) = (⟨.idle, none⟩, unexpectedObs p) ∧
    mainRun p s (MainEvent.claimed j ge renv :: evs)
      = ((mainRun p ⟨.idle, none⟩ evs).1,
         unexpectedObs p ++ (mainRun p ⟨.idle, none⟩ evs).2) := by
  have h1 : iterStep p s (MainEvent.claimed j ge renv) = (⟨.idle, none⟩, unexpectedObs p) := by
    simp [iterStep, h]
  exact ⟨h1, by simp [mainRun, h1]⟩

/-- A claimed job dict missing `musetalk_job_id`. -/
def badJobEx : JobDict :=
  ⟨none, some "https://x/v.mp4", some "https://x/a.wav", none, none⟩

/-- C2 witness: the concrete bad claim is logged, resets the state and
the run continues with the next poll. -/
theorem unclassified_error_keeps_loop_alive_witness :
    iterStep 5 initState (MainEvent.claimed badJobEx (GenOutcome.resp 200 "" okBodyEx) rOkEnv)
      = (⟨.idle, none⟩, unexpectedObs 5) ∧
    mainRun 5 initState
        (MainEvent.claimed badJobEx (GenOutcome.resp 200 "" okBodyEx) rOkEnv
          :: [MainEvent.noJob])
      = ((mainRun 5 ⟨.idle, none⟩ [MainEvent.noJob]).1,
         unexpectedObs 5 ++ (mainRun 5 ⟨.idle, none⟩ [MainEvent.noJob]).2) :=
  unclassified_error_keeps_loop_alive 5 initState badJobEx
    (GenOutcome.resp 200 "" okBodyEx) rOkEnv [MainEvent.noJob] rfl

/-- C10: on a no-job iteration the loop checks the state under the lock
before sleeping: from a busy state it writes (idle, null) and sleeps;
from an idle state it writes nothing and sleeps; in either case a state
satisfying the invariant ends the iteration as (idle, null). -/
theorem no_job_idle_reset (p : Nat) (s : WorkerState) (h : stateInvariant s) :
    (iterStep p s MainEvent.noJob).1 = ⟨.idle, none⟩ ∧
    (s.status = .busy →
      iterStep p s MainEvent.noJob
        = (⟨.idle, none⟩, [Obs.write WriteCause.noJobCheck ⟨.idle, none⟩, Obs.sleep p])) ∧
    (s.status = .idle →
      iterStep p s MainEvent.noJob = (s, [Obs.sleep p])) := by
  refine ⟨?_, ?_, ?_⟩
  · by_cases hs : s.status = .idle
    · have hj : s.current_job_id = none := by
        by_contra hc
        have hb := h.mpr hc
        rw [hs] at hb
        cases hb
      have hss : s = ⟨.idle, none⟩ := by
        rcases s with ⟨st, jid⟩
        simp_all
      rw [hss]
      simp [iterStep]
    · simp [iterStep, hs]
  · intro hb
    have hs : ¬ s.status = .idle := by rw [hb]; intro hq; cases hq
    simp [iterStep, hs]
  · intro hi
    simp [iterStep, hi]

/-- C10 witness: a stale busy state is reset to (idle, null) before the
sleep of a concrete no-job iteration. -/
theorem no_job_idle_reset_witness :
    (iterStep 5 ⟨Status.busy, some "job-42"⟩ MainEvent.noJob).1 = ⟨Status.idle, none⟩ ∧
    iterStep 5 ⟨Status.busy, some "job-42"⟩ MainEvent.noJob
      = (⟨Status.idle, none⟩,
         [Obs.write WriteCause.noJobCheck ⟨Status.idle, none⟩, Obs.sleep 5]) := by
  have h := no_job_idle_reset 5 ⟨Status.busy, some "job-42"⟩ (by decide)
  exact ⟨h.1, h.2.1 rfl⟩

end UnifiedWorker
